import Mathlib

/-!
Verification development for the per-frame draw core of the `ledge` sprite
rendering engine (src/src/graphics/mod.rs and src/src/graphics/shader.rs).

Machine floats (`f32`) are modelled as real numbers: every claim settled here
is an algebraic claim stated "up to floating-point tolerance", so the real
field is the intended semantics. `cgmath::Matrix4<f32>` is modelled as the
abstract matrix `Matrix (Fin 4) (Fin 4) ℝ`; cgmath stores matrices
column-major, so its `from_cols` constructor is the transpose of the
row-listing constructor, and its `transpose` method is matrix transposition.
Rust `&mut self` methods are modelled as functions returning the updated
value; a Rust `panic` (an `unwrap` of `None`) is modelled as `Option.none`
or as an explicit outcome constructor.
-/

namespace Ledge

/-- A `cgmath::Vector3<f32>` of the source, components as real numbers. -/
structure Vec3 where
  x : ℝ
  y : ℝ
  z : ℝ

/-- A `cgmath::Matrix4<f32>` of the source, as an abstract 4x4 real matrix
(row index first, column index second). -/
abbrev Mat4 := Matrix (Fin 4) (Fin 4) ℝ

/-- Models `cgmath::Matrix4::from_cols c0 c1 c2 c3`: the matrix whose columns
are the four given vectors (cgmath is column-major). -/
def Matrix4.from_cols (c0 c1 c2 c3 : Fin 4 → ℝ) : Mat4 :=
  (Matrix.of ![c0, c1, c2, c3]).transpose

/-- Models `cgmath::Matrix4::from_translation v`: identity with `v` in the
last column. -/
def Matrix4.from_translation (v : Vec3) : Mat4 :=
  Matrix.of ![![1, 0, 0, v.x], ![0, 1, 0, v.y], ![0, 0, 1, v.z], ![0, 0, 0, 1]]

/-- Models `cgmath::Matrix4::from_angle_x (Rad r)`: rotation about the x axis. -/
noncomputable def Matrix4.from_angle_x (r : ℝ) : Mat4 :=
  Matrix.of ![![1, 0, 0, 0],
              ![0, Real.cos r, -Real.sin r, 0],
              ![0, Real.sin r, Real.cos r, 0],
              ![0, 0, 0, 1]]

/-- Models `cgmath::Matrix4::from_angle_y (Rad r)`: rotation about the y axis. -/
noncomputable def Matrix4.from_angle_y (r : ℝ) : Mat4 :=
  Matrix.of ![![Real.cos r, 0, Real.sin r, 0],
              ![0, 1, 0, 0],
              ![-Real.sin r, 0, Real.cos r, 0],
              ![0, 0, 0, 1]]

/-- Models `cgmath::Matrix4::from_angle_z (Rad r)`: rotation about the z axis. -/
noncomputable def Matrix4.from_angle_z (r : ℝ) : Mat4 :=
  Matrix.of ![![Real.cos r, -Real.sin r, 0, 0],
              ![Real.sin r, Real.cos r, 0, 0],
              ![0, 0, 1, 0],
              ![0, 0, 0, 1]]

/-- Models `cgmath::Matrix4::from_nonuniform_scale x y z`. -/
def Matrix4.from_nonuniform_scale (x y z : ℝ) : Mat4 :=
  Matrix.of ![![x, 0, 0, 0], ![0, y, 0, 0], ![0, 0, z, 0], ![0, 0, 0, 1]]

/-- The `Transform` enum of src/src/graphics/mod.rs: either decomposed
components (position, rotation angle in radians, non-uniform scale,
offset/pivot) or a raw 4x4 matrix. -/
inductive Transform
  | Components (pos : Vec3) (rotation : ℝ) (scale : Vec3) (offset : Vec3)
  | Matrix (m : Mat4)

/-- Source `Transform::identity`: the Components shape with zero position,
rotation and offset and unit scale. -/
def Transform.identity : Transform :=
  .Components ⟨0, 0, 0⟩ 0 ⟨1, 1, 1⟩ ⟨0, 0, 0⟩

/-- Source `Transform::as_mat4`, translated line by line: the Matrix shape
returns its matrix; the Components shape builds the four `cr` rows, passes
them to `Matrix4::from_cols` and transposes the result. -/
noncomputable def Transform.as_mat4 : Transform → Mat4
  | .Matrix mat => mat
  | .Components pos rotation scale offset =>
      let sinr := Real.sin rotation
      let cosr := Real.cos rotation
      let cr00 := cosr * scale.x
      let cr01 := -sinr * scale.y
      let cr10 := sinr * scale.x
      let cr11 := cosr * scale.y
      let cr03 := offset.x * (1 - cr00) - offset.y * cr01 + pos.x
      let cr13 := offset.y * (1 - cr11) - offset.x * cr10 + pos.y
      (Matrix4.from_cols
        ![cr00, cr01, 0, cr03]
        ![cr10, cr11, 0, cr13]
        ![0, 0, 1, 0]
        ![0, 0, 0, 1]).transpose

/-- Source `Transform::dest`: overwrites the position of a Components-shape
transform; the Matrix-shape branch is commented out in the source, so a
Matrix-shape transform is left unchanged. -/
def Transform.dest : Transform → ℝ → ℝ → ℝ → Transform
  | .Matrix mat, _, _, _ => .Matrix mat
  | .Components _ rotation scale offset, x, y, z =>
      .Components ⟨x, y, z⟩ rotation scale offset

/-- Source `Transform::translate`: left-multiplies a translation matrix onto a
Matrix-shape transform; adds the delta to the position of a Components-shape
transform. -/
def Transform.translate : Transform → ℝ → ℝ → ℝ → Transform
  | .Matrix mat, x, y, z => .Matrix (Matrix4.from_translation ⟨x, y, z⟩ * mat)
  | .Components pos rotation scale offset, x, y, z =>
      .Components ⟨pos.x + x, pos.y + y, pos.z + z⟩ rotation scale offset

/-- Source `Transform::rotate`: first forms `rotation`, the SUM of the three
axis rotation matrices (not their product), then left-multiplies it onto a
Matrix-shape transform; the Components-shape branch is commented out in the
source, so a Components-shape transform is left unchanged. -/
noncomputable def Transform.rotate (t : Transform) (x y z : ℝ) : Transform :=
  let rotation :=
    Matrix4.from_angle_x x + Matrix4.from_angle_y y + Matrix4.from_angle_z z
  match t with
  | .Matrix mat => .Matrix (rotation * mat)
  | .Components pos rot scale offset => .Components pos rot scale offset

/-- Source `Transform::rotate_value`: overwrites the rotation angle of a
Components-shape transform; leaves a Matrix-shape transform unchanged. -/
def Transform.rotate_value : Transform → ℝ → Transform
  | .Matrix mat, _ => .Matrix mat
  | .Components pos _ scale offset, r => .Components pos r scale offset

/-- Source `Transform::nonuniform_scale`: left-multiplies a non-uniform scale
matrix onto a Matrix-shape transform; overwrites the scale of a
Components-shape transform. -/
def Transform.nonuniform_scale : Transform → ℝ → ℝ → ℝ → Transform
  | .Matrix mat, x, y, z =>
      .Matrix (Matrix4.from_nonuniform_scale x y z * mat)
  | .Components pos rotation _ offset, x, y, z =>
      .Components pos rotation ⟨x, y, z⟩ offset

/-- The position component of a Components-shape transform, when present. -/
def Transform.posOr : Transform → Option Vec3
  | .Components pos _ _ _ => some pos
  | .Matrix _ => none

/-- The matrix the spec sentence describes, read as the claim reads it: scale
by all three components of `scale`, rotate by `rotation` about the pivot
`offset`, then translate to `pos`, with all three components of `pos` and
`scale` taking effect. The row-major-then-transpose convention of the source
is its column-major storage step and cancels in the abstract-matrix model, so
the composition appears untransposed here. -/
noncomputable def claimedComposition3D (pos : Vec3) (rotation : ℝ)
    (scale offset : Vec3) : Mat4 :=
  Matrix4.from_translation pos *
    Matrix4.from_translation offset *
    Matrix4.from_angle_z rotation *
    Matrix4.from_nonuniform_scale scale.x scale.y scale.z *
    Matrix4.from_translation ⟨-offset.x, -offset.y, -offset.z⟩

/-- The composition `as_mat4` actually implements: scale by the x and y
components of `scale` and rotate by `rotation`, both about the x,y pivot
`offset`, then translate by the x and y components of `pos`; the z components
of position, scale and offset are ignored and the z row and column stay those
of the identity. -/
noncomputable def composedComposition2D (pos : Vec3) (rotation : ℝ)
    (scale offset : Vec3) : Mat4 :=
  Matrix4.from_translation ⟨pos.x, pos.y, 0⟩ *
    Matrix4.from_translation ⟨offset.x, offset.y, 0⟩ *
    Matrix4.from_angle_z rotation *
    Matrix4.from_nonuniform_scale scale.x scale.y 1 *
    Matrix4.from_translation ⟨-offset.x, -offset.y, 0⟩

/-- The `Color` newtype of src/src/graphics/mod.rs: four normalized float
components. -/
structure Color where
  arr : Fin 4 → ℝ

/-- Source `Color::white`. -/
def Color.white : Color := ⟨![1, 1, 1, 1]⟩

/-- The `Rect` struct of src/src/graphics/mod.rs: a normalized texture-space
rectangle. -/
structure Rect where
  x : ℝ
  y : ℝ
  w : ℝ
  h : ℝ

/-- Source `Rect::default`: the full unit rectangle. -/
def Rect.default : Rect := ⟨0, 0, 1, 1⟩

/-- Source `Rect::as_vec`. -/
def Rect.as_vec (r : Rect) : Fin 4 → ℝ := ![r.x, r.y, r.w, r.h]

/-- The `DrawInfo` struct of src/src/graphics/mod.rs: one sprite instance's
draw attributes. -/
structure DrawInfo where
  tex_rect : Rect
  color : Color
  transform : Transform

/-- Source `DrawInfo::new` (also its `Default`): full rectangle, white tint,
identity transform. -/
def DrawInfo.new : DrawInfo :=
  ⟨Rect.default, Color.white, Transform.identity⟩

/-- Source `DrawInfo::translate`, delegating to the transform. -/
def DrawInfo.translate (info : DrawInfo) (x y z : ℝ) : DrawInfo :=
  { info with transform := info.transform.translate x y z }

/-- The `Vertex` struct of src/src/graphics/mod.rs. -/
structure Vertex where
  pos : Fin 3 → ℝ
  uv : Fin 2 → ℝ
  vert_color : Fin 4 → ℝ

/-- The `QUAD_VERTICES` constant of src/src/graphics/mod.rs: the four shared
quad vertices. -/
def QUAD_VERTICES : List Vertex :=
  [⟨![0, 0, 0], ![0, 0], ![1, 1, 1, 1]⟩,
   ⟨![0, 1, 0], ![0, 1], ![1, 1, 1, 1]⟩,
   ⟨![1, 0, 0], ![1, 0], ![1, 1, 1, 1]⟩,
   ⟨![1, 1, 0], ![1, 1], ![1, 1, 1, 1]⟩]

/-- The `InstanceData` struct of src/src/graphics/mod.rs: one GPU instance
record. -/
structure InstanceData where
  src : Fin 4 → ℝ
  color : Fin 4 → ℝ
  transform : Mat4

/-- Source `impl From<DrawInfo> for InstanceData`: packs the rectangle, the
color and the transform's matrix. -/
noncomputable def InstanceData.of_draw_info (info : DrawInfo) : InstanceData :=
  ⟨info.tex_rect.as_vec, info.color.arr, info.transform.as_mat4⟩

/-- A `vulkano::descriptor_set::WriteDescriptorSet`, as built by
`PipelineData::buffer` and `PipelineData::sampled_image` in
src/src/graphics/mod.rs; buffer, image and sampler handles are opaque
numbers. -/
inductive WriteDescriptorSet
  | buffer (binding : ℕ) (buf : ℕ)
  | image_view_sampler (binding : ℕ) (image : ℕ) (sampler : ℕ)
deriving DecidableEq

/-- The `PipelineData` struct of src/src/graphics/mod.rs: the flattened
per-draw payload. -/
structure PipelineData where
  vertex_buffer : List Vertex
  vertex_count : ℕ
  instance_buffer : List InstanceData
  instance_count : ℕ
  descriptors : Option (List WriteDescriptorSet)

/-- Modelled from the spec: `PipelineData::flush` is called by
`ShaderHandle::draw` (src/src/graphics/shader.rs line 81) but its definition
is in a module that is not under src/. Per the spec, flattening is read-only
and yields the stored buffers, descriptors, vertex count and instance
count. -/
def PipelineData.flush (pd : PipelineData) :
    (List Vertex × List InstanceData) × List WriteDescriptorSet × ℕ × ℕ :=
  ((pd.vertex_buffer, pd.instance_buffer), pd.descriptors.getD [],
    pd.vertex_count, pd.instance_count)

/-- Modelled from the spec: the `SpriteBatch` of graphics/sprite.rs, which is
not under src/. It owns a reference to one shared visual resource (an opaque
handle here) and an insertion-ordered sequence of `DrawInfo`. -/
structure SpriteBatch where
  resource : ℕ
  sprites : List DrawInfo

/-- Modelled from the spec: `SpriteBatch::insert` appends to the ordered
sequence. -/
def SpriteBatch.insert (b : SpriteBatch) (info : DrawInfo) : SpriteBatch :=
  { b with sprites := b.sprites ++ [info] }

/-- Modelled from the spec: flattening a `SpriteBatch` produces the fixed
shared quad geometry (4 vertices) plus one instance record per `DrawInfo` in
insertion order, together with the batch's resource bound as a sampled-image
descriptor. -/
noncomputable def SpriteBatch.flatten (b : SpriteBatch) : PipelineData :=
  { vertex_buffer := QUAD_VERTICES
    vertex_count := QUAD_VERTICES.length
    instance_buffer := b.sprites.map InstanceData.of_draw_info
    instance_count := b.sprites.length
    descriptors := some [.image_view_sampler 0 b.resource 0] }

/-- The `BlendMode` enum of src/src/graphics/mod.rs. -/
inductive BlendMode
  | Add
  | Subtract
  | Alpha
  | Invert
deriving DecidableEq

/-- The subset of `vulkano::pipeline::graphics::color_blend::BlendOp` the
source uses. -/
inductive BlendOp
  | Add
  | Subtract
  | ReverseSubtract
  | Min
  | Max
deriving DecidableEq

/-- The subset of `vulkano::pipeline::graphics::color_blend::BlendFactor` the
source uses. -/
inductive BlendFactor
  | Zero
  | One
  | SrcAlpha
  | OneMinusSrcAlpha
deriving DecidableEq

/-- The subset of `vulkano::pipeline::graphics::color_blend::LogicOp` the
source uses. -/
inductive LogicOp
  | Clear
  | Copy
  | NoOp
  | Invert
deriving DecidableEq

/-- Models `vulkano::pipeline::StateMode`. -/
inductive StateMode (α : Type)
  | Fixed (value : α)
  | Dynamic
deriving DecidableEq

/-- Models `vulkano::pipeline::graphics::color_blend::ColorComponents` as the
four write-mask flags; `ColorComponents::all` enables all four. -/
structure ColorComponents where
  r : Bool
  g : Bool
  b : Bool
  a : Bool
deriving DecidableEq

/-- Models `ColorComponents::all`. -/
def ColorComponents.all : ColorComponents := ⟨true, true, true, true⟩

/-- Models `vulkano::pipeline::graphics::color_blend::AttachmentBlend`. -/
structure AttachmentBlend where
  color_op : BlendOp
  color_source : BlendFactor
  color_destination : BlendFactor
  alpha_op : BlendOp
  alpha_source : BlendFactor
  alpha_destination : BlendFactor
deriving DecidableEq

/-- Models vulkano's `AttachmentBlend::alpha` constructor: standard alpha
blending, source times source-alpha plus destination times one minus
source-alpha, for both the color and the alpha channel. -/
def AttachmentBlend.alpha : AttachmentBlend :=
  ⟨.Add, .SrcAlpha, .OneMinusSrcAlpha, .Add, .SrcAlpha, .OneMinusSrcAlpha⟩

/-- Models `vulkano::pipeline::graphics::color_blend::ColorBlendAttachmentState`. -/
structure ColorBlendAttachmentState where
  blend : Option AttachmentBlend
  color_write_mask : ColorComponents
  color_write_enable : StateMode Bool
deriving DecidableEq

/-- Models `vulkano::pipeline::graphics::color_blend::ColorBlendState`; the
blend constants are an array of four floats. -/
structure ColorBlendState where
  logic_op : Option (StateMode LogicOp)
  attachments : List ColorBlendAttachmentState
  blend_constants : StateMode (Fin 4 → ℝ)

/-- Source `impl From<BlendMode> for ColorBlendState`
(src/src/graphics/shader.rs lines 225-270), translated line by line. -/
def ColorBlendState.from_blend_mode (blend_mode : BlendMode) : ColorBlendState :=
  let blend_constants : Fin 4 → ℝ := ![1, 1, 1, 1]
  let st : Option (StateMode LogicOp) × Option AttachmentBlend :=
    match blend_mode with
    | .Add => (none, some ⟨.Add, .One, .One, .Add, .One, .One⟩)
    | .Subtract => (none, some ⟨.Subtract, .One, .One, .Subtract, .One, .One⟩)
    | .Alpha => (none, some AttachmentBlend.alpha)
    | .Invert => (some (.Fixed .Invert), none)
  { logic_op := st.1
    attachments := [{ blend := st.2
                      color_write_mask := ColorComponents.all
                      color_write_enable := .Fixed true }]
    blend_constants := .Fixed blend_constants }

/-- A compiled `vulkano::pipeline::GraphicsPipeline`, as an opaque identity
plus the descriptor-set layout handles its `layout().set_layouts()` exposes. -/
structure GraphicsPipeline where
  id : ℕ
  set_layouts : List ℕ
deriving DecidableEq

/-- The `PipelineObjectSet` of src/src/graphics/shader.rs: a map from blend
mode to compiled pipeline, modelled as a function into `Option`. -/
structure PipelineObjectSet where
  pipelines : BlendMode → Option GraphicsPipeline

/-- Source `PipelineObjectSet::new`; the capacity hint of the backing hash map
has no observable effect. -/
def PipelineObjectSet.new (_cap : ℕ) : PipelineObjectSet :=
  ⟨fun _ => none⟩

/-- Source `PipelineObjectSet::insert`: hash-map insertion. -/
def PipelineObjectSet.insert (pos : PipelineObjectSet) (blend_mode : BlendMode)
    (pipeline : GraphicsPipeline) : PipelineObjectSet :=
  ⟨fun m => if m = blend_mode then some pipeline else pos.pipelines m⟩

/-- Source `PipelineObjectSet::get`: hash-map lookup, a miss is `none`. -/
def PipelineObjectSet.get (pos : PipelineObjectSet) (blend_mode : BlendMode) :
    Option GraphicsPipeline :=
  pos.pipelines blend_mode

/-- The `ShaderProgram` struct of src/src/graphics/shader.rs: a pipeline set
plus the currently active blend mode. -/
structure ShaderProgram where
  pipelines : PipelineObjectSet
  current_mode : BlendMode

/-- Source `ShaderProgram::new`: builds one pipeline for `blend` (the GPU
build itself is external and its result is passed in here) and registers it. -/
def ShaderProgram.new (po : GraphicsPipeline) (blend : BlendMode) :
    ShaderProgram :=
  ⟨(PipelineObjectSet.new 16).insert blend po, blend⟩

/-- Source `ShaderProgram::from_pipeline`. -/
def ShaderProgram.from_pipeline (mode : BlendMode)
    (pipeline : GraphicsPipeline) : ShaderProgram :=
  ⟨(PipelineObjectSet.new 16).insert mode pipeline, mode⟩

/-- Source `ShaderHandle::blend_mode` for `ShaderProgram`. -/
def ShaderProgram.blend_mode (sp : ShaderProgram) : BlendMode :=
  sp.current_mode

/-- Source `ShaderHandle::pipeline` for `ShaderProgram`: looks the current
mode up in the pipeline set and unwraps; the panic of `unwrap` on a miss is
modelled as `none`. -/
def ShaderProgram.pipeline (sp : ShaderProgram) : Option GraphicsPipeline :=
  sp.pipelines.get sp.current_mode

/-- Source `ShaderHandle::layout` for `ShaderProgram`: the set layouts of the
pipeline for the current mode; the panic of `unwrap` on a miss is modelled as
`none`. -/
def ShaderProgram.layout (sp : ShaderProgram) : Option (List ℕ) :=
  (sp.pipelines.get sp.current_mode).map GraphicsPipeline.set_layouts

/-- One command recorded into a
`vulkano::command_buffer::AutoCommandBufferBuilder`, restricted to the
commands `ShaderHandle::draw` records. -/
inductive Cmd
  | bindPipelineGraphics (pipeline : GraphicsPipeline)
  | bindDescriptorSets (layout : ℕ) (descriptors : List WriteDescriptorSet)
  | bindVertexBuffers (vertices : List Vertex) (instances : List InstanceData)
  | draw (vertex_count instance_count first_vertex first_instance : ℕ)

/-- Whether a recorded command is an actual draw call. -/
def Cmd.isDraw : Cmd → Bool
  | .draw _ _ _ _ => true
  | _ => false

/-- Source `ShaderHandle::draw` for `ShaderProgram`
(src/src/graphics/shader.rs lines 71-97): binds the pipeline for the current
mode, creates a descriptor set on the second set layout, binds it, binds the
vertex buffers, and issues one draw call with the flushed vertex and instance
counts. The command buffer is the list of recorded commands; the `unwrap`
panics (missing pipeline, missing second set layout) are modelled as `none`. -/
def ShaderProgram.draw (sp : ShaderProgram) (command_buffer : List Cmd)
    (pipe_data : PipelineData) : Option (List Cmd) :=
  match sp.pipeline, sp.layout with
  | some pl, some layouts =>
    match layouts.get? 1 with
    | none => none
    | some layout =>
      let flushed := pipe_data.flush
      some (command_buffer ++
        [.bindPipelineGraphics pl,
         .bindDescriptorSets layout flushed.2.1,
         .bindVertexBuffers flushed.1.1 flushed.1.2,
         .draw flushed.2.2.1 flushed.2.2.2 0 0])
  | _, _ => none

/-- One call through the public `ShaderHandle` API of a `ShaderProgram`; the
trait's `set_blend_mode` is commented out in the source and `ShaderProgram`
has no other public mutator, so these are all the operations a client can
perform on an owned program after construction. -/
inductive ProgramOp
  | draw (pipe_data : PipelineData)
  | blend_mode
  | layout
  | pipeline

/-- Applies one `ShaderHandle` call: every method takes `&self`, so the
program state is returned unchanged and only `draw` extends the command
buffer (a failing draw aborts the frame and records nothing). -/
def stepProgram (sp : ShaderProgram) (cb : List Cmd) :
    ProgramOp → ShaderProgram × List Cmd
  | .draw pd =>
    match sp.draw cb pd with
    | some cb2 => (sp, cb2)
    | none => (sp, cb)
  | .blend_mode => (sp, cb)
  | .layout => (sp, cb)
  | .pipeline => (sp, cb)

/-- Runs a sequence of `ShaderHandle` calls against a program. -/
def runProgram (sp : ShaderProgram) (cb : List Cmd) :
    List ProgramOp → ShaderProgram × List Cmd
  | [] => (sp, cb)
  | op :: ops =>
    let s := stepProgram sp cb op
    runProgram s.1 s.2 ops

/-- A `ShaderId` of src/src/graphics/shader.rs: an index into the context's
shader programs. -/
abbrev ShaderId := ℕ

/-- The part of the `GraphicsContext` that `draw_with`
(src/src/graphics/mod.rs lines 96-107) touches: the current-shader slot,
a `Rc<RefCell<Option<ShaderId>>>` in the source (the context struct itself
lives in graphics/context.rs, which is not under src/; only this slot decides
the claims about `draw_with`). -/
structure GraphicsContext where
  current_shader : Option ShaderId
deriving DecidableEq

/-- The outcome of a `draw_with` call: normal return, an unwind escaping from
the inner draw call, or the panic of `draw_with`'s own `unwrap` on an empty
current-shader slot. -/
inductive FrameOutcome
  | ok
  | drawFailed
  | panicked
deriving DecidableEq

/-- Source `draw_with`, translated line by line. The drawable (with its
`DrawInfo` already applied) is a function from the context to a success flag
plus the updated context; `false` models a panic unwinding out of
`drawable.draw`. Control flow of the source: `take()` empties the slot and
`unwrap` panics if it was empty; otherwise the slot is overwritten with the
override, the drawable runs, and the restore statement after the call runs
only when the drawable returns normally. -/
def draw_with (drawable : GraphicsContext → Bool × GraphicsContext)
    (shader : ShaderId) (ctx : GraphicsContext) :
    FrameOutcome × GraphicsContext :=
  match ctx.current_shader with
  | none => (.panicked, { ctx with current_shader := none })
  | some prev_shader =>
    let res := drawable { ctx with current_shader := some shader }
    if res.1 then (.ok, { res.2 with current_shader := some prev_shader })
    else (.drawFailed, res.2)

/-- C2: the conversion from `BlendMode` to fixed-function color-blend state
produces exactly: Add with op add and factors one/one for color and alpha and
no logic op; Subtract with op subtract and factors one/one for color and
alpha and no logic op; Alpha with standard alpha blending
(src times srcAlpha plus dst times one minus srcAlpha) for color and the same
for alpha and no logic op; Invert with no attachment blend and logic op
invert. -/
theorem blend_mode_fixed_function_mapping :
    ColorBlendState.from_blend_mode .Add =
      { logic_op := none
        attachments := [{ blend := some ⟨.Add, .One, .One, .Add, .One, .One⟩
                          color_write_mask := ColorComponents.all
                          color_write_enable := .Fixed true }]
        blend_constants := .Fixed ![1, 1, 1, 1] } ∧
    ColorBlendState.from_blend_mode .Subtract =
      { logic_op := none
        attachments := [{ blend :=
                            some ⟨.Subtract, .One, .One, .Subtract, .One, .One⟩
                          color_write_mask := ColorComponents.all
                          color_write_enable := .Fixed true }]
        blend_constants := .Fixed ![1, 1, 1, 1] } ∧
    ColorBlendState.from_blend_mode .Alpha =
      { logic_op := none
        attachments := [{ blend := some ⟨.Add, .SrcAlpha, .OneMinusSrcAlpha,
                                         .Add, .SrcAlpha, .OneMinusSrcAlpha⟩
                          color_write_mask := ColorComponents.all
                          color_write_enable := .Fixed true }]
        blend_constants := .Fixed ![1, 1, 1, 1] } ∧
    ColorBlendState.from_blend_mode .Invert =
      { logic_op := some (.Fixed .Invert)
        attachments := [{ blend := none
                          color_write_mask := ColorComponents.all
                          color_write_enable := .Fixed true }]
        blend_constants := .Fixed ![1, 1, 1, 1] } :=
  ⟨rfl, rfl, rfl, rfl⟩

/-- C3: when the current blend mode has no pipeline registered, `pipeline()`
and `layout()` resolve to the modelled panic (`none`, a fatal precondition
violation), `draw` records nothing rather than acting as a silent no-op, and
`PipelineObjectSet::get` itself reports a miss as `none` (shown for the fresh
set) rather than an error value. -/
theorem unregistered_mode_resolution_fails (sp : ShaderProgram) :
    (sp.pipelines.get sp.current_mode = none →
      sp.pipeline = none ∧ sp.layout = none ∧
        ∀ cb pd, sp.draw cb pd = none) ∧
    ∀ cap m, (PipelineObjectSet.new cap).get m = none := by
  constructor
  · intro h
    refine ⟨h, ?_, ?_⟩
    · simp [ShaderProgram.layout, h]
    · intro cb pd
      simp [ShaderProgram.draw, ShaderProgram.pipeline, h]
  · intro cap m
    rfl

/-- Witness for C3: a program whose set holds only an Add pipeline while the
current mode is Alpha resolves to the modelled panic. -/
theorem unregistered_mode_resolution_fails_witness :
    ((ShaderProgram.mk ((PipelineObjectSet.new 16).insert .Add ⟨0, [10, 11]⟩)
        .Alpha).pipelines.get
      (ShaderProgram.mk ((PipelineObjectSet.new 16).insert .Add ⟨0, [10, 11]⟩)
        .Alpha).current_mode = none) ∧
    ((ShaderProgram.mk ((PipelineObjectSet.new 16).insert .Add ⟨0, [10, 11]⟩)
        .Alpha).pipeline = none ∧
      (ShaderProgram.mk ((PipelineObjectSet.new 16).insert .Add ⟨0, [10, 11]⟩)
        .Alpha).layout = none ∧
      ∀ cb pd,
        (ShaderProgram.mk ((PipelineObjectSet.new 16).insert .Add ⟨0, [10, 11]⟩)
          .Alpha).draw cb pd = none) :=
  ⟨by decide,
   (unregistered_mode_resolution_fails
      (ShaderProgram.mk ((PipelineObjectSet.new 16).insert .Add ⟨0, [10, 11]⟩)
        .Alpha)).1 (by decide)⟩

/-- C8: on a Components-shape transform, applying `translate` twice with the
same delta yields the same resulting position as applying `translate` once
with the doubled delta. -/
theorem translate_accumulates_additively (p : Vec3) (r : ℝ) (s o : Vec3)
    (dx dy dz : ℝ) :
    (((Transform.Components p r s o).translate dx dy dz).translate
        dx dy dz).posOr =
      ((Transform.Components p r s o).translate (2 * dx) (2 * dy)
        (2 * dz)).posOr := by
  simp only [Transform.translate, Transform.posOr, Option.some.injEq,
    Vec3.mk.injEq]
  refine ⟨by ring, by ring, by ring⟩

/-- C9: every mutating operation on `Transform` (`dest`, `translate`,
`rotate`, `rotate_value`, `nonuniform_scale`) is shape-preserving: a
Components-shape transform stays Components-shape with only the corresponding
field updated (for `rotate` no field changes at all), and a Matrix-shape
transform stays Matrix-shape. -/
theorem mutators_shape_preserving (p : Vec3) (r : ℝ) (s o : Vec3) (m : Mat4)
    (x y z w : ℝ) :
    ((Transform.Components p r s o).dest x y z =
        .Components ⟨x, y, z⟩ r s o) ∧
    ((Transform.Components p r s o).translate x y z =
        .Components ⟨p.x + x, p.y + y, p.z + z⟩ r s o) ∧
    ((Transform.Components p r s o).rotate x y z =
        .Components p r s o) ∧
    ((Transform.Components p r s o).rotate_value w =
        .Components p w s o) ∧
    ((Transform.Components p r s o).nonuniform_scale x y z =
        .Components p r ⟨x, y, z⟩ o) ∧
    (∃ m2, (Transform.Matrix m).dest x y z = .Matrix m2) ∧
    (∃ m2, (Transform.Matrix m).translate x y z = .Matrix m2) ∧
    (∃ m2, (Transform.Matrix m).rotate x y z = .Matrix m2) ∧
    (∃ m2, (Transform.Matrix m).rotate_value w = .Matrix m2) ∧
    (∃ m2, (Transform.Matrix m).nonuniform_scale x y z = .Matrix m2) :=
  ⟨rfl, rfl, rfl, rfl, rfl, ⟨_, rfl⟩, ⟨_, rfl⟩, ⟨_, rfl⟩, ⟨_, rfl⟩, ⟨_, rfl⟩⟩

/-- Building with `from_cols` and transposing recovers the row listing; this
is the only fact about the cgmath storage convention the proofs need. -/
theorem from_cols_transpose (c0 c1 c2 c3 : Fin 4 → ℝ) :
    (Matrix4.from_cols c0 c1 c2 c3).transpose = Matrix.of ![c0, c1, c2, c3] :=
  Matrix.transpose_transpose _

/-- Counterexample to C1 as stated: at position (0,0,1), rotation 0, scale
(1,1,1), offset (0,0,0), the matrix `as_mat4` returns differs from the full
3D composition the claim describes, because the z component of the position
never enters the result (`as_mat4` builds a purely 2D transform with an
identity z row). -/
theorem as_mat4_3d_composition_counterexample :
    (Transform.Components ⟨0, 0, 1⟩ 0 ⟨1, 1, 1⟩ ⟨0, 0, 0⟩).as_mat4 ≠
      claimedComposition3D ⟨0, 0, 1⟩ 0 ⟨1, 1, 1⟩ ⟨0, 0, 0⟩ := by
  intro h
  have h23 := Matrix.ext_iff.mpr h 2 3
  simp [Transform.as_mat4, claimedComposition3D, from_cols_transpose,
    Matrix4.from_translation, Matrix4.from_angle_z,
    Matrix4.from_nonuniform_scale, Matrix.mul_apply, Fin.sum_univ_four,
    Real.sin_zero, Real.cos_zero, Matrix.vecHead, Matrix.vecTail] at h23

set_option maxHeartbeats 2000000 in
/-- C1 as amended: for every Components-shape transform, `as_mat4` returns
the single homogeneous matrix of the composition scale by the x,y components
of the scale, then rotate by the rotation angle, both about the x,y pivot
given by the offset, then translate by the x,y components of the position;
the z components of position, scale and offset are ignored and the z row and
column are those of the identity. -/
theorem as_mat4_is_2d_composition (p : Vec3) (r : ℝ) (s o : Vec3) :
    (Transform.Components p r s o).as_mat4 = composedComposition2D p r s o := by
  ext i j
  fin_cases i <;> fin_cases j <;>
    simp [Transform.as_mat4, composedComposition2D, from_cols_transpose,
      Matrix4.from_translation, Matrix4.from_angle_z,
      Matrix4.from_nonuniform_scale, Matrix.mul_apply, Fin.sum_univ_four,
      Matrix.vecHead, Matrix.vecTail] <;>
    ring

/-- Counterexample to C7 as stated: on a Matrix-shape transform `rotate` is
not ignored; already at angles (0,0,0) it replaces the identity matrix with
three times the identity, because the source multiplies by the SUM of the
three axis rotation matrices. -/
theorem rotate_on_matrix_shape_counterexample :
    (Transform.Matrix 1).rotate 0 0 0 ≠ Transform.Matrix 1 := by
  intro h
  injection h with hm
  have h00 := Matrix.ext_iff.mpr hm 0 0
  simp [Matrix4.from_angle_x, Matrix4.from_angle_y, Matrix4.from_angle_z,
    Matrix.mul_apply, Fin.sum_univ_four, Real.sin_zero, Real.cos_zero,
    Matrix.one_apply] at h00

/-- C7 as amended: on a Matrix-shape transform, `translate` left-multiplies
the elementary translation matrix and `nonuniform_scale` left-multiplies the
elementary non-uniform scale matrix onto the stored matrix, while `rotate`
left-multiplies the sum of the three axis rotation matrices (not a rotation,
and not a no-op); it is the Components shape on which `rotate` leaves the
transform unchanged. Each equation is read back through `as_mat4`, the sole
path by which other components consume the stored matrix. -/
theorem matrix_shape_mutators_left_multiply (m : Mat4) (x y z : ℝ)
    (p : Vec3) (r : ℝ) (s o : Vec3) :
    (((Transform.Matrix m).translate x y z).as_mat4 =
        Matrix4.from_translation ⟨x, y, z⟩ * m) ∧
    (((Transform.Matrix m).nonuniform_scale x y z).as_mat4 =
        Matrix4.from_nonuniform_scale x y z * m) ∧
    (((Transform.Matrix m).rotate x y z).as_mat4 =
        (Matrix4.from_angle_x x + Matrix4.from_angle_y y +
          Matrix4.from_angle_z z) * m) ∧
    ((Transform.Components p r s o).rotate x y z =
        .Components p r s o) :=
  ⟨rfl, rfl, rfl, rfl⟩

/-- C4: drawing a flattened sprite-batch payload through a `ShaderProgram`
whose current mode has a registered pipeline (with a second set layout, as
`layout()[1]` requires) appends exactly the four commands of the source draw
method, the last and only draw call being instanced with vertex count 4 (the
shared quad) and instance count equal to the number of flattened instances;
the count of draw commands in the stream grows by exactly one. -/
theorem draw_records_one_instanced_draw (sp : ShaderProgram) (cb : List Cmd)
    (b : SpriteBatch) (pl : GraphicsPipeline) (l : ℕ)
    (hpl : sp.pipelines.get sp.current_mode = some pl)
    (hl : pl.set_layouts.get? 1 = some l) :
    sp.draw cb b.flatten =
      some (cb ++
        [.bindPipelineGraphics pl,
         .bindDescriptorSets l [.image_view_sampler 0 b.resource 0],
         .bindVertexBuffers QUAD_VERTICES
           (b.sprites.map InstanceData.of_draw_info),
         .draw 4 b.sprites.length 0 0]) ∧
    ∀ cb2, sp.draw cb b.flatten = some cb2 →
      cb2.countP (fun c => c.isDraw) = cb.countP (fun c => c.isDraw) + 1 := by
  have hdraw : sp.draw cb b.flatten =
      some (cb ++
        [.bindPipelineGraphics pl,
         .bindDescriptorSets l [.image_view_sampler 0 b.resource 0],
         .bindVertexBuffers QUAD_VERTICES
           (b.sprites.map InstanceData.of_draw_info),
         .draw 4 b.sprites.length 0 0]) := by
    simp [ShaderProgram.draw, ShaderProgram.pipeline, ShaderProgram.layout,
      hpl, ← List.get?_eq_getElem?, hl, SpriteBatch.flatten,
      PipelineData.flush, QUAD_VERTICES]
  refine ⟨hdraw, ?_⟩
  intro cb2 h2
  rw [hdraw] at h2
  cases h2
  simp [List.countP_append, List.countP_cons, Cmd.isDraw]

/-- Witness for C4: a program holding an Alpha pipeline with set layouts
[10, 11], and a batch built by four inserts with distinct translations; the
flattened batch has four instances. -/
theorem draw_records_one_instanced_draw_witness :
    ((ShaderProgram.from_pipeline .Alpha ⟨0, [10, 11]⟩).pipelines.get
        (ShaderProgram.from_pipeline .Alpha ⟨0, [10, 11]⟩).current_mode =
      some ⟨0, [10, 11]⟩) ∧
    ((⟨0, [10, 11]⟩ : GraphicsPipeline).set_layouts.get? 1 = some 11) ∧
    (((((SpriteBatch.mk 5 []).insert (DrawInfo.new.translate 0.5 0.5 6)).insert
          (DrawInfo.new.translate (-0.5) 0.5 6)).insert
        (DrawInfo.new.translate 0.5 (-0.5) 6)).insert
      (DrawInfo.new.translate (-0.5) (-0.5) 6)).sprites.length = 4 ∧
    ((ShaderProgram.from_pipeline .Alpha ⟨0, [10, 11]⟩).draw []
        (((((SpriteBatch.mk 5 []).insert
              (DrawInfo.new.translate 0.5 0.5 6)).insert
            (DrawInfo.new.translate (-0.5) 0.5 6)).insert
          (DrawInfo.new.translate 0.5 (-0.5) 6)).insert
        (DrawInfo.new.translate (-0.5) (-0.5) 6)).flatten =
      some ([] ++
        [.bindPipelineGraphics ⟨0, [10, 11]⟩,
         .bindDescriptorSets 11 [.image_view_sampler 0 5 0],
         .bindVertexBuffers QUAD_VERTICES
           ((((((SpriteBatch.mk 5 []).insert
                  (DrawInfo.new.translate 0.5 0.5 6)).insert
                (DrawInfo.new.translate (-0.5) 0.5 6)).insert
              (DrawInfo.new.translate 0.5 (-0.5) 6)).insert
            (DrawInfo.new.translate (-0.5) (-0.5) 6)).sprites.map
              InstanceData.of_draw_info),
         .draw 4
           (((((SpriteBatch.mk 5 []).insert
                  (DrawInfo.new.translate 0.5 0.5 6)).insert
                (DrawInfo.new.translate (-0.5) 0.5 6)).insert
              (DrawInfo.new.translate 0.5 (-0.5) 6)).insert
            (DrawInfo.new.translate (-0.5) (-0.5) 6)).sprites.length 0 0]) ∧
      ∀ cb2,
        (ShaderProgram.from_pipeline .Alpha ⟨0, [10, 11]⟩).draw []
            (((((SpriteBatch.mk 5 []).insert
                  (DrawInfo.new.translate 0.5 0.5 6)).insert
                (DrawInfo.new.translate (-0.5) 0.5 6)).insert
              (DrawInfo.new.translate 0.5 (-0.5) 6)).insert
            (DrawInfo.new.translate (-0.5) (-0.5) 6)).flatten = some cb2 →
          cb2.countP (fun c => c.isDraw) =
            ([] : List Cmd).countP (fun c => c.isDraw) + 1) :=
  ⟨by decide, by decide, rfl,
   draw_records_one_instanced_draw (ShaderProgram.from_pipeline .Alpha
      ⟨0, [10, 11]⟩) [] _ ⟨0, [10, 11]⟩ 11 (by decide) (by decide)⟩

/-- Every method of the public `ShaderHandle` API leaves the program state
unchanged: the trait takes `&self` everywhere and the only mutator,
`set_blend_mode`, is commented out in the source. -/
theorem stepProgram_fst (sp : ShaderProgram) (cb : List Cmd) (op : ProgramOp) :
    (stepProgram sp cb op).1 = sp := by
  cases op with
  | draw pd => cases h : sp.draw cb pd <;> simp [stepProgram, h]
  | blend_mode => rfl
  | layout => rfl
  | pipeline => rfl

/-- Running any sequence of `ShaderHandle` calls leaves the program state
unchanged. -/
theorem runProgram_fst (ops : List ProgramOp) :
    ∀ (sp : ShaderProgram) (cb : List Cmd), (runProgram sp cb ops).1 = sp := by
  induction ops with
  | nil => intro sp cb; rfl
  | cons op ops ih =>
    intro sp cb
    show (runProgram (stepProgram sp cb op).1 (stepProgram sp cb op).2 ops).1 =
      sp
    rw [ih]
    exact stepProgram_fst sp cb op

/-- C5: once a pipeline is registered for a mode in a program's set, any
sequence of public `ShaderHandle` calls (draws included) leaves the binding
in place, and whenever that mode is the current one a later `pipeline()`
lookup returns the same pipeline identity; indeed the whole program state is
unchanged, so there is no rebuild or replacement path. -/
theorem pipeline_binding_stable (sp : ShaderProgram) (cb : List Cmd)
    (ops : List ProgramOp) (m : BlendMode) (pl : GraphicsPipeline)
    (h : sp.pipelines.get m = some pl) :
    (runProgram sp cb ops).1.pipelines.get m = some pl ∧
    ((runProgram sp cb ops).1.current_mode = m →
      (runProgram sp cb ops).1.pipeline = some pl) ∧
    (runProgram sp cb ops).1 = sp := by
  have hfst := runProgram_fst ops sp cb
  refine ⟨by rw [hfst]; exact h, ?_, hfst⟩
  intro hm
  rw [hfst] at hm ⊢
  show sp.pipelines.get sp.current_mode = some pl
  rw [hm]
  exact h

/-- Witness for C5: an Add program run through a lookup, a draw, and more
lookups keeps returning the registered pipeline. -/
theorem pipeline_binding_stable_witness :
    ((ShaderProgram.from_pipeline .Add ⟨3, [7, 8]⟩).pipelines.get .Add =
      some ⟨3, [7, 8]⟩) ∧
    ((runProgram (ShaderProgram.from_pipeline .Add ⟨3, [7, 8]⟩) []
        [.pipeline, .draw ⟨[], 0, [], 0, none⟩, .blend_mode, .layout,
          .pipeline]).1.pipelines.get .Add = some ⟨3, [7, 8]⟩ ∧
      ((runProgram (ShaderProgram.from_pipeline .Add ⟨3, [7, 8]⟩) []
          [.pipeline, .draw ⟨[], 0, [], 0, none⟩, .blend_mode, .layout,
            .pipeline]).1.current_mode = .Add →
        (runProgram (ShaderProgram.from_pipeline .Add ⟨3, [7, 8]⟩) []
          [.pipeline, .draw ⟨[], 0, [], 0, none⟩, .blend_mode, .layout,
            .pipeline]).1.pipeline = some ⟨3, [7, 8]⟩) ∧
      (runProgram (ShaderProgram.from_pipeline .Add ⟨3, [7, 8]⟩) []
        [.pipeline, .draw ⟨[], 0, [], 0, none⟩, .blend_mode, .layout,
          .pipeline]).1 = ShaderProgram.from_pipeline .Add ⟨3, [7, 8]⟩) :=
  ⟨by decide,
   pipeline_binding_stable (ShaderProgram.from_pipeline .Add ⟨3, [7, 8]⟩) []
     [.pipeline, .draw ⟨[], 0, [], 0, none⟩, .blend_mode, .layout, .pipeline]
     .Add ⟨3, [7, 8]⟩ (by decide)⟩

/-- C6, evaluated at the failing input the spec's design notes predict: when
the inner draw call fails (its unwind is modelled by the drawable returning
`false`), the restore statement after the call never runs, so with previous
selection 0 and override 1 the slot afterwards holds the override 1 and not
the restored 0 the claim requires; on normal completion the previous
selection is restored. -/
theorem draw_with_leaks_override_on_failure :
    (draw_with (fun c => (false, c)) 1 ⟨some 0⟩).2.current_shader = some 1 ∧
    (draw_with (fun c => (false, c)) 1 ⟨some 0⟩).2.current_shader ≠ some 0 ∧
    (draw_with (fun c => (true, c)) 1 ⟨some 0⟩).2.current_shader = some 0 :=
  ⟨rfl, by decide, rfl⟩

/-- C10: when the current-shader slot holds no selection, `draw_with` panics
on the unwrap of the taken value before any drawing occurs: the outcome is
the panic, the context is returned with the slot still empty, and the result
does not depend on the drawable at all; under the precondition that a
selection is present, the panic branch is unreachable. -/
theorem draw_with_unwrap_panic (d : GraphicsContext → Bool × GraphicsContext)
    (sh : ShaderId) (ctx : GraphicsContext) :
    (ctx.current_shader = none →
      draw_with d sh ctx = (.panicked, { ctx with current_shader := none }) ∧
      ∀ d2, draw_with d2 sh ctx = draw_with d sh ctx) ∧
    ∀ s, ctx.current_shader = some s → (draw_with d sh ctx).1 ≠ .panicked := by
  constructor
  · intro h
    constructor
    · simp [draw_with, h]
    · intro d2
      simp [draw_with, h]
  · intro s hs
    simp only [draw_with, hs]
    cases hb : (d { ctx with current_shader := some sh }).1 <;> simp [hb]

/-- Witness for C10: with an empty slot the call panics whatever the
drawable; with selection 3 present it does not panic. -/
theorem draw_with_unwrap_panic_witness :
    ((GraphicsContext.mk none).current_shader = none ∧
      (draw_with (fun c => (true, c)) 5 ⟨none⟩ =
          (.panicked, { GraphicsContext.mk none with current_shader := none }) ∧
        ∀ d2, draw_with d2 5 ⟨none⟩ = draw_with (fun c => (true, c)) 5 ⟨none⟩)) ∧
    ((GraphicsContext.mk (some 3)).current_shader = some 3 ∧
      (draw_with (fun c => (true, c)) 5 ⟨some 3⟩).1 ≠ .panicked) :=
  ⟨⟨rfl, (draw_with_unwrap_panic (fun c => (true, c)) 5 ⟨none⟩).1 rfl⟩,
   ⟨rfl, (draw_with_unwrap_panic (fun c => (true, c)) 5 ⟨some 3⟩).2 3 rfl⟩⟩

end Ledge
